import Mathlib

/-!
Shallow embedding of `dyneusr/mapper/wrappers.py`.

The repository is a thin adapter around external libraries (kmapper, sklearn).
We embed the wrapper's own logic faithfully:

* a dataset / lens is an N-row numeric matrix, modelled as `List (List Int)`
  (the wrapper never looks inside the entries, only shapes and identities);
* the external collaborators (`KeplerMapper.fit_transform`, `KeplerMapper.map`,
  `optimize_dbscan`, `optimize_cover` from `.utils`) are opaque pure functions
  gathered in an `Env` record; the claims under study are about the wrapper's
  orchestration, not about the collaborators' internals;
* configuration objects (projection, scaler, clusterer, cover) are opaque
  atoms; a Python expression slot that may hold `None`, a falsy object (for
  example the empty dict) or a truthy object is modelled by `Py α`, and
  Python's `x or y` by `pyOr`, which is truthiness-based, not `None`-based;
* the wrapper instance is a `Wrapper` record; each method becomes a function
  from the old record to the new one (`return self` in the source is the
  returned, updated record);
* `np.copy` at the value level preserves the value (`npCopy`); its aliasing
  behaviour (fresh allocation) is modelled separately on a small array heap
  (`ArrayHeap`, `npCopyHeap`) for the defensive-copy claim.
-/

set_option autoImplicit false

namespace Dyneusr

/-- Numeric N x D matrix: a dataset, or a lens, as handled by the wrapper.
The wrapper treats array entries opaquely, so integer entries suffice. -/
abbrev Mat : Type := List (List Int)

/-- Opaque projection configuration object (for example `PCA(2)`). -/
structure ProjCfg where
  tag : Nat
deriving DecidableEq

/-- Opaque scaler configuration object (for example `MinMaxScaler()`). -/
structure ScalerCfg where
  tag : Nat
deriving DecidableEq

/-- Opaque clusterer configuration object (for example `DBSCAN(...)`). -/
structure ClusterCfg where
  tag : Nat
deriving DecidableEq

/-- Opaque cover configuration object (a kmapper `Cover`, or a dict). -/
structure CoverCfg where
  tag : Nat
deriving DecidableEq

/-- Opaque graph value as returned by `KeplerMapper.map` (a dict). -/
structure Graph where
  tag : Nat
deriving DecidableEq

/-- A Python value slot that is either `None` or an object carrying its own
truthiness (`Py.obj false v` models a non-`None` but falsy object such as the
empty dict `\x7b\x7d`; `Py.obj true v` a truthy object). -/
inductive Py (α : Type) where
  | none : Py α
  | obj : (truthy : Bool) → (val : α) → Py α
deriving DecidableEq

/-- Python truthiness of a slot: `None` is falsy, an object carries its own. -/
def Py.isTruthy {α : Type} : Py α → Bool
  | Py.none => false
  | Py.obj t _ => t

/-- Python `x or y`: `x` when `x` is truthy, otherwise `y`. -/
def pyOr {α : Type} (x y : Py α) : Py α :=
  if x.isTruthy then x else y

/-- External collaborators, as pure (hence deterministic) functions:
`KeplerMapper.fit_transform`, `KeplerMapper.map`, and the two heuristics
imported from `.utils` (their bodies are not part of the wrapper module). -/
structure Env where
  mapperFitTransform : Mat → Py ProjCfg → Py ScalerCfg → Mat
  mapperMap : Mat → Option Mat → Py ClusterCfg → Py CoverCfg → Graph
  optimizeDbscan : Option Mat → ClusterCfg
  optimizeCover : Option Mat → CoverCfg

/-- State of a `KMapperWrapper` instance.  `mapper` records the verbosity of
the current `KeplerMapper` instance (the only datum the wrapper gives it);
`data_`, `lens_`, `graph_` are `Option` because a fresh instance has not set
these attributes yet. -/
structure Wrapper where
  mapper : Int
  verbose : Int
  projection : Py ProjCfg
  scaler : Py ScalerCfg
  clusterer : Py ClusterCfg
  cover : Py CoverCfg
  data_ : Option Mat
  lens_ : Option Mat
  graph_ : Option Graph
deriving DecidableEq

/-- `np.copy` at the value level: the copied array holds the same value. -/
def npCopy (m : Mat) : Mat := m

/-- `dict(graph)` at the value level: a shallow copy holds the same value. -/
def dictCopy (g : Graph) : Graph := g

/-- Default `projection=PCA(2)` of the constructor: a truthy object. -/
def pca2 : Py ProjCfg := Py.obj true ⟨2⟩

/-- Default `scaler=MinMaxScaler()` of the constructor: a truthy object. -/
def minMaxScaler : Py ScalerCfg := Py.obj true ⟨0⟩

/-- `KMapperWrapper.__init__` (wrappers.py lines 73-106): stores the five
configuration arguments and a fresh `KeplerMapper()` (default verbosity 0);
`data_`, `lens_`, `graph_` are not set on a fresh instance. -/
def KMapperWrapper.init (projection : Py ProjCfg) (scaler : Py ScalerCfg)
    (cover : Py CoverCfg) (clusterer : Py ClusterCfg) (verbose : Int) : Wrapper :=
  { mapper := 0
  , verbose := verbose
  , projection := projection
  , scaler := scaler
  , clusterer := clusterer
  , cover := cover
  , data_ := Option.none
  , lens_ := Option.none
  , graph_ := Option.none }

/-- A default-constructed wrapper: `KMapperWrapper()` with the source's
default arguments `projection=PCA(2), scaler=MinMaxScaler(), cover=None,
clusterer=None, verbose=1`. -/
def defaultWrapper : Wrapper :=
  KMapperWrapper.init pca2 minMaxScaler Py.none Py.none 1

/-- `KMapperWrapper.fit_lens` (wrappers.py lines 109-127):
re-creates the mapper with `verbose-1`, updates `projection`/`scaler` with
Python `or` (a falsy argument keeps the stored one), computes the lens via
the external `mapper.fit_transform`, and stores `np.copy(data)` in `data_`
and `np.copy(lens)` in `lens_`.  Returns `self`, the updated record. -/
def KMapperWrapper.fitLens (env : Env) (s : Wrapper) (data : Mat)
    (projection : Py ProjCfg) (scaler : Py ScalerCfg) : Wrapper :=
  let mapper := s.verbose - 1
  let projection := pyOr projection s.projection
  let scaler := pyOr scaler s.scaler
  let lens := env.mapperFitTransform data projection scaler
  { s with
    mapper := mapper
    projection := projection
    scaler := scaler
    data_ := some (npCopy data)
    lens_ := some (npCopy lens) }

/-- `KMapperWrapper.fit_graph` (wrappers.py lines 130-150):
re-creates the mapper with `verbose`, resolves `clusterer` and `cover` by
the chains `clusterer or self.clusterer or optimize_dbscan(data)` and
`cover or self.cover or optimize_cover(data)` (Python `or`, so truthiness
decides; the heuristics return fresh truthy objects), makes a further
discarded pure call `optimize_cover(data)` (line 137, no effect), builds the
graph via the external `mapper.map`, and stores `np.copy(data)`,
`np.copy(lens)` and `dict(graph)`.  When `data` is `None`, `np.copy(None)`
is a degenerate 0-d object array no claim observes; it is modelled as
`none`.  Returns `self`, the updated record. -/
def KMapperWrapper.fitGraph (env : Env) (s : Wrapper) (lens : Mat)
    (data : Option Mat) (clusterer : Py ClusterCfg) (cover : Py CoverCfg) : Wrapper :=
  let mapper := s.verbose
  let clusterer := pyOr clusterer (pyOr s.clusterer (Py.obj true (env.optimizeDbscan data)))
  let cover := pyOr cover (pyOr s.cover (Py.obj true (env.optimizeCover data)))
  let graph := env.mapperMap lens data clusterer cover
  { s with
    mapper := mapper
    clusterer := clusterer
    cover := cover
    data_ := Option.map npCopy data
    lens_ := some (npCopy lens)
    graph_ := some (dictCopy graph) }

/-- Python calling convention for `fit_graph`: its `lens` parameter has no
default (wrappers.py line 130), so a call omitting it raises
`TypeError: missing required positional argument` before the body runs. -/
inductive PyCallError where
  | typeErrorMissingArg : PyCallError
deriving DecidableEq

/-- A call to `fit_graph` as issued by a caller who may or may not supply
the `lens` argument: omitting `lens` fails with a `TypeError` (Python call
convention, `lens` has no default); otherwise the method body
`KMapperWrapper.fitGraph` runs. -/
def KMapperWrapper.fitGraphCall (env : Env) (s : Wrapper) (lens : Option Mat)
    (data : Option Mat) (clusterer : Py ClusterCfg) (cover : Py CoverCfg) :
    Except PyCallError Wrapper :=
  match lens with
  | Option.none => Except.error PyCallError.typeErrorMissingArg
  | some l => Except.ok (KMapperWrapper.fitGraph env s l data clusterer cover)

/-- `KMapperWrapper.fit` (wrappers.py lines 153-163): when `lens` is `None`,
first `fit_lens(data, **kwargs)` and read the freshly stored `self.lens_`;
then in either case `fit_graph(lens, data, **kwargs)`.  The keyword
arguments forwarded by `**kwargs` are the four configuration overrides
(each method ignores the ones it does not name).  `fit_lens` always sets
`lens_`, so the `getD` default is never used.  Returns `self`. -/
def KMapperWrapper.fit (env : Env) (s : Wrapper) (data : Mat) (lens0 : Option Mat)
    (projection : Py ProjCfg) (scaler : Py ScalerCfg)
    (clusterer : Py ClusterCfg) (cover : Py CoverCfg) : Wrapper :=
  match lens0 with
  | Option.none =>
      let s1 := KMapperWrapper.fitLens env s data projection scaler
      KMapperWrapper.fitGraph env s1 (s1.lens_.getD []) (some data) clusterer cover
  | some l => KMapperWrapper.fitGraph env s l (some data) clusterer cover

/-- `BaseMapperWrapper.fit_transform` (wrappers.py lines 57-60):
`return self.fit(data).lens_`; for a `KMapperWrapper` instance the dynamic
dispatch reaches `KMapperWrapper.fit`, called with no lens and no keyword
overrides. -/
def BaseMapperWrapper.fitTransform (env : Env) (s : Wrapper) (data : Mat) : Option Mat :=
  (KMapperWrapper.fit env s data Option.none Py.none Py.none Py.none Py.none).lens_

/-- `BaseMapperWrapper.fit_map` (wrappers.py lines 62-65):
`return self.fit(data).graph_`, same dispatch as `fit_transform`. -/
def BaseMapperWrapper.fitMap (env : Env) (s : Wrapper) (data : Mat) : Option Graph :=
  (KMapperWrapper.fit env s data Option.none Py.none Py.none Py.none Py.none).graph_

/-- The `**params` dict handed to the two free functions: the constructor's
five named configuration values. -/
structure Params where
  projection : Py ProjCfg
  scaler : Py ScalerCfg
  cover : Py CoverCfg
  clusterer : Py ClusterCfg
  verbose : Int
deriving DecidableEq

/-- The `Bunch` result assembled by `run_kmapper`. -/
structure Bunch where
  data : Option Mat
  lens : Option Mat
  graph : Option Graph
  params : Params
deriving DecidableEq

/-- Dynamic result type of the two free functions: Python lets one return
the wrapper object and the other a `Bunch`. -/
inductive PyResult where
  | wrapper : Wrapper → PyResult
  | bunch : Bunch → PyResult
deriving DecidableEq

/-- Whether a dynamic result is a `Bunch` bundle. -/
def PyResult.isBunch : PyResult → Bool
  | PyResult.bunch _ => true
  | PyResult.wrapper _ => false

/-- `KMapperWrapper(**params)`: the constructor applied to the params dict. -/
def initFromParams (p : Params) : Wrapper :=
  KMapperWrapper.init p.projection p.scaler p.cover p.clusterer p.verbose

/-- `fit_kmapper(data, **params)` (wrappers.py lines 169-171): constructs a
wrapper from `params` and returns `mapper.fit(data, **params)` — which is
the wrapper itself (`fit` returns `self`), the params landing in `fit`'s
keyword overrides. -/
def fitKmapper (env : Env) (data : Mat) (p : Params) : PyResult :=
  let mapper := initFromParams p
  PyResult.wrapper
    (KMapperWrapper.fit env mapper data Option.none p.projection p.scaler p.clusterer p.cover)

/-- `run_kmapper(data, **params)` (wrappers.py lines 174-184): constructs a
wrapper from `params`, fits it, and returns a `Bunch` of the stored
`data_`, `lens_`, `graph_` and the `params` used. -/
def runKmapper (env : Env) (data : Mat) (p : Params) : PyResult :=
  let mapper := initFromParams p
  let fitted := KMapperWrapper.fit env mapper data Option.none p.projection p.scaler p.clusterer p.cover
  PyResult.bunch
    { data := fitted.data_
    , lens := fitted.lens_
    , graph := fitted.graph_
    , params := p }

/-! Heap-level model of the defensive copy.

`self.data_ = np.copy(data)` (wrappers.py line 125) is, at the memory level,
an allocation of a fresh array holding the same contents; a tiny heap of
arrays makes the aliasing claim statable. -/

/-- A heap of numpy arrays; a reference is an index into the list. -/
structure ArrayHeap where
  arrays : List Mat
deriving DecidableEq

/-- Read the array behind a reference. -/
def ArrayHeap.read (h : ArrayHeap) (r : Nat) : Mat :=
  h.arrays.getD r []

/-- Allocate a fresh array; the returned reference is new. -/
def ArrayHeap.alloc (h : ArrayHeap) (m : Mat) : ArrayHeap × Nat :=
  (⟨h.arrays ++ [m]⟩, h.arrays.length)

/-- In-place mutation of the array behind a reference. -/
def ArrayHeap.write (h : ArrayHeap) (r : Nat) (m : Mat) : ArrayHeap :=
  ⟨h.arrays.set r m⟩

/-- `np.copy` at the heap level: allocate a fresh array with the same
contents as the source array. -/
def npCopyHeap (h : ArrayHeap) (r : Nat) : ArrayHeap × Nat :=
  h.alloc (h.read r)

/-- The array-storing step of `fit_lens` (wrappers.py line 125),
`self.data_ = np.copy(data)`, at the heap level: the reference stored in
`data_` is the one returned by `np.copy`. -/
def fitLensStoreData (h : ArrayHeap) (dataRef : Nat) : ArrayHeap × Nat :=
  npCopyHeap h dataRef

/-- A concrete deterministic environment for evaluating the embedding on
concrete inputs: the projection pipeline returns the data unchanged and the
heuristics return the tag-0 configurations. -/
def env0 : Env :=
  { mapperFitTransform := fun d _ _ => d
  , mapperMap := fun _ _ _ _ => ⟨0⟩
  , optimizeDbscan := fun _ => ⟨0⟩
  , optimizeCover := fun _ => ⟨0⟩ }

/-- A concrete two-row dataset. -/
def data0 : Mat := [[0, 1], [2, 3]]

/-- Concrete params dict mirroring the constructor defaults. -/
def params0 : Params :=
  { projection := pca2, scaler := minMaxScaler
  , cover := Py.none, clusterer := Py.none, verbose := 1 }

/-! Helper lemmas about Python `or` and about list reads after set/append. -/

theorem pyOr_none_left {α : Type} (y : Py α) : pyOr Py.none y = y := rfl

theorem pyOr_of_truthy {α : Type} (x y : Py α) (h : x.isTruthy = true) :
    pyOr x y = x := by
  simp [pyOr, h]

theorem pyOr_of_not_truthy {α : Type} (x y : Py α) (h : x.isTruthy = false) :
    pyOr x y = y := by
  simp [pyOr, h]

theorem isTruthy_pyOr_obj_true {α : Type} (x : Py α) (a : α) :
    (pyOr x (Py.obj true a)).isTruthy = true := by
  cases x with
  | none => rfl
  | obj t v => cases t <;> simp [pyOr, Py.isTruthy]

theorem pyOr_pyOr_obj_true {α : Type} (x : Py α) (a b : α) :
    pyOr (pyOr x (Py.obj true a)) (Py.obj true b) = pyOr x (Py.obj true a) :=
  pyOr_of_truthy _ _ (isTruthy_pyOr_obj_true x a)

theorem list_getD_set_ne (l : List Mat) (i j : Nat) (m : Mat) (hij : i ≠ j) :
    (l.set i m).getD j [] = l.getD j [] := by
  induction l generalizing i j with
  | nil => simp
  | cons a t ih =>
    cases i with
    | zero =>
      cases j with
      | zero => exact absurd rfl hij
      | succ j => simp
    | succ i =>
      cases j with
      | zero => simp
      | succ j =>
        simpa using ih i j (fun h => hij (by rw [h]))

theorem list_getD_append_length (l : List Mat) (v : Mat) :
    (l ++ [v]).getD l.length [] = v := by
  rw [List.getD_append_right l [v] [] l.length (Nat.le_refl _)]
  simp

/-! The claims. -/

/-- Claim C1: `fit(data)` with `lens` omitted first runs `fit_lens(data)` and
then `fit_graph` on the lens just computed and the data; `fit(data, lens)`
with a lens supplied skips `fit_lens` and runs `fit_graph(lens, data)`
directly; `fit_graph` runs on every `fit` call (a graph is stored in both
cases), and `fit` returns self — in the embedding, the updated wrapper
record that `fit_graph` produced. -/
theorem claim_C1 (env : Env) (s : Wrapper) (data l : Mat) :
    (KMapperWrapper.fit env s data Option.none Py.none Py.none Py.none Py.none =
      (let s1 := KMapperWrapper.fitLens env s data Py.none Py.none
       KMapperWrapper.fitGraph env s1 (s1.lens_.getD []) (some data) Py.none Py.none)) ∧
    (KMapperWrapper.fit env s data (some l) Py.none Py.none Py.none Py.none =
      KMapperWrapper.fitGraph env s l (some data) Py.none Py.none) ∧
    ((KMapperWrapper.fit env s data Option.none Py.none Py.none Py.none Py.none).graph_.isSome
      = true) ∧
    ((KMapperWrapper.fit env s data (some l) Py.none Py.none Py.none Py.none).graph_.isSome
      = true) :=
  ⟨rfl, rfl, rfl, rfl⟩

/-- Claim C4: on a fresh wrapper, a call to `fit_graph` that omits the
`lens` argument fails with a missing-argument `TypeError` (the parameter
has no default), and therefore never produces a wrapper state with a
defaulted or empty lens. -/
theorem claim_C4 (env : Env) (data : Option Mat) (c : Py ClusterCfg) (v : Py CoverCfg) :
    KMapperWrapper.fitGraphCall env defaultWrapper Option.none data c v =
      Except.error PyCallError.typeErrorMissingArg :=
  rfl

/-- Claim C6: `fit_transform(data)` equals running `fit(data)` and returning
the stored `lens_`, and `fit_map(data)` equals running `fit(data)` and
returning the stored `graph_`; both perform the full fit (the returned lens
and graph are set). -/
theorem claim_C6 (env : Env) (s : Wrapper) (data : Mat) :
    (BaseMapperWrapper.fitTransform env s data =
      (KMapperWrapper.fit env s data Option.none Py.none Py.none Py.none Py.none).lens_) ∧
    (BaseMapperWrapper.fitMap env s data =
      (KMapperWrapper.fit env s data Option.none Py.none Py.none Py.none Py.none).graph_) ∧
    ((BaseMapperWrapper.fitTransform env s data).isSome = true) ∧
    ((BaseMapperWrapper.fitMap env s data).isSome = true) :=
  ⟨rfl, rfl, rfl, rfl⟩

/-- Claim C9: `fit_lens` never touches `graph_` (whether unset or set by an
earlier `fit_graph`), nor the clusterer, cover, or verbosity configuration;
it writes only `data_`, `lens_`, `mapper`, `projection`, `scaler`. -/
theorem claim_C9 (env : Env) (s : Wrapper) (data : Mat)
    (p : Py ProjCfg) (sc : Py ScalerCfg) :
    ((KMapperWrapper.fitLens env s data p sc).graph_ = s.graph_) ∧
    ((KMapperWrapper.fitLens env s data p sc).clusterer = s.clusterer) ∧
    ((KMapperWrapper.fitLens env s data p sc).cover = s.cover) ∧
    ((KMapperWrapper.fitLens env s data p sc).verbose = s.verbose) :=
  ⟨rfl, rfl, rfl, rfl⟩

/-- Claim C5: after `fit_lens(data)`, the stored `lens_` is set and has
exactly as many rows as `data`, assuming the underlying
`mapper.fit_transform` collaborator yields one output row per input row on
this call. -/
theorem claim_C5 (env : Env) (s : Wrapper) (data : Mat)
    (p : Py ProjCfg) (sc : Py ScalerCfg)
    (h : (env.mapperFitTransform data (pyOr p s.projection) (pyOr sc s.scaler)).length
      = data.length) :
    ((KMapperWrapper.fitLens env s data p sc).lens_.isSome = true) ∧
    (((KMapperWrapper.fitLens env s data p sc).lens_.getD []).length = data.length) :=
  ⟨rfl, by simpa [KMapperWrapper.fitLens, npCopy] using h⟩

/-- Witness for C5 at a concrete row-preserving environment and dataset. -/
theorem claim_C5_witness :
    ((env0.mapperFitTransform data0 (pyOr Py.none defaultWrapper.projection)
        (pyOr Py.none defaultWrapper.scaler)).length = data0.length) ∧
    (((KMapperWrapper.fitLens env0 defaultWrapper data0 Py.none Py.none).lens_.isSome = true) ∧
     (((KMapperWrapper.fitLens env0 defaultWrapper data0 Py.none
          Py.none).lens_.getD []).length = data0.length)) :=
  ⟨by decide, claim_C5 env0 defaultWrapper data0 Py.none Py.none (by decide)⟩

/-- Claim C2 (counterexample): it is not true that every `fit_graph` call
omitting `clusterer`/`cover` uses `optimize_dbscan(data)` /
`optimize_cover(data)`: a wrapper that already stores a truthy clusterer or
cover (here supplied to the constructor) reuses the stored configuration
instead of the heuristic. -/
theorem claim_C2_counterexample :
    ((KMapperWrapper.fitGraph env0
        (KMapperWrapper.init pca2 minMaxScaler Py.none (Py.obj true ⟨1⟩) 1)
        [[0]] (some data0) Py.none Py.none).clusterer ≠
      Py.obj true (env0.optimizeDbscan (some data0))) ∧
    ((KMapperWrapper.fitGraph env0
        (KMapperWrapper.init pca2 minMaxScaler (Py.obj true ⟨1⟩) Py.none 1)
        [[0]] (some data0) Py.none Py.none).cover ≠
      Py.obj true (env0.optimizeCover (some data0))) := by
  constructor <;> decide

/-- Claim C2 (amended): when the `clusterer` argument is omitted and the
instance's stored clusterer is absent (`None` or falsy), the configuration
used is `optimize_dbscan(data)`; likewise for `cover` with
`optimize_cover(data)`.  In particular a default-constructed wrapper uses
the heuristics on its first `fit_graph` call. -/
theorem claim_C2_amended_thm (env : Env) (s : Wrapper) (lens : Mat) (data : Option Mat)
    (hc : s.clusterer.isTruthy = false) (hv : s.cover.isTruthy = false) :
    ((KMapperWrapper.fitGraph env s lens data Py.none Py.none).clusterer =
      Py.obj true (env.optimizeDbscan data)) ∧
    ((KMapperWrapper.fitGraph env s lens data Py.none Py.none).cover =
      Py.obj true (env.optimizeCover data)) := by
  constructor
  · show pyOr Py.none (pyOr s.clusterer (Py.obj true (env.optimizeDbscan data))) = _
    rw [pyOr_none_left, pyOr_of_not_truthy _ _ hc]
  · show pyOr Py.none (pyOr s.cover (Py.obj true (env.optimizeCover data))) = _
    rw [pyOr_none_left, pyOr_of_not_truthy _ _ hv]

/-- Witness for the amended C2: a default-constructed wrapper (stored
clusterer and cover both `None`) uses the heuristics. -/
theorem claim_C2_witness :
    ((defaultWrapper.clusterer.isTruthy = false) ∧ (defaultWrapper.cover.isTruthy = false)) ∧
    (((KMapperWrapper.fitGraph env0 defaultWrapper [[0]] (some data0)
        Py.none Py.none).clusterer = Py.obj true (env0.optimizeDbscan (some data0))) ∧
     ((KMapperWrapper.fitGraph env0 defaultWrapper [[0]] (some data0)
        Py.none Py.none).cover = Py.obj true (env0.optimizeCover (some data0)))) :=
  ⟨⟨rfl, rfl⟩,
    claim_C2_amended_thm env0 defaultWrapper [[0]] (some data0) rfl rfl⟩

/-- Claim C3 (counterexample): `fit_kmapper` does not return a bundle — it
returns `mapper.fit(data, **params)`, which is the wrapper object itself. -/
theorem claim_C3_counterexample :
    (fitKmapper env0 data0 params0).isBunch = false := by
  decide

/-- Claim C3 (amended): `run_kmapper` returns a bundle containing the fitted
data, lens, graph and the params used, while `fit_kmapper` returns the
fitted wrapper object itself (the `self` returned by `fit`), not a bundle. -/
theorem claim_C3_amended_thm (env : Env) (data : Mat) (p : Params) :
    (fitKmapper env data p =
      PyResult.wrapper
        (KMapperWrapper.fit env (initFromParams p) data Option.none
          p.projection p.scaler p.clusterer p.cover)) ∧
    (runKmapper env data p =
      PyResult.bunch
        { data := (KMapperWrapper.fit env (initFromParams p) data Option.none
            p.projection p.scaler p.clusterer p.cover).data_
        , lens := (KMapperWrapper.fit env (initFromParams p) data Option.none
            p.projection p.scaler p.clusterer p.cover).lens_
        , graph := (KMapperWrapper.fit env (initFromParams p) data Option.none
            p.projection p.scaler p.clusterer p.cover).graph_
        , params := p }) :=
  ⟨rfl, rfl⟩

/-- Claim C7: fitting the same data twice in succession with no
configuration change leaves `lens_` identical to its value after the first
fit and `graph_` identical (hence in particular isomorphic) to the first
graph; the collaborators are pure functions of their arguments here, which
is exactly the claim's determinism assumption. -/
theorem claim_C7 (env : Env) (s : Wrapper) (d : Mat) :
    ((KMapperWrapper.fit env
        (KMapperWrapper.fit env s d Option.none Py.none Py.none Py.none Py.none)
        d Option.none Py.none Py.none Py.none Py.none).lens_ =
      (KMapperWrapper.fit env s d Option.none Py.none Py.none Py.none Py.none).lens_) ∧
    ((KMapperWrapper.fit env
        (KMapperWrapper.fit env s d Option.none Py.none Py.none Py.none Py.none)
        d Option.none Py.none Py.none Py.none Py.none).graph_ =
      (KMapperWrapper.fit env s d Option.none Py.none Py.none Py.none Py.none).graph_) := by
  constructor <;>
    simp [KMapperWrapper.fit, KMapperWrapper.fitLens, KMapperWrapper.fitGraph,
      npCopy, dictCopy, pyOr_none_left, pyOr_pyOr_obj_true]

/-- Claim C8: the array stored in `data_` by `fit_lens` (line 125,
`self.data_ = np.copy(data)`) is a defensive copy: value-equal to the
caller's array at call time, a distinct allocation, and insulated from
mutation in both directions. -/
theorem claim_C8 (h : ArrayHeap) (dataRef : Nat) (m : Mat)
    (hvalid : dataRef < h.arrays.length) :
    ((fitLensStoreData h dataRef).1.read (fitLensStoreData h dataRef).2 = h.read dataRef) ∧
    ((fitLensStoreData h dataRef).2 ≠ dataRef) ∧
    (((fitLensStoreData h dataRef).1.write dataRef m).read (fitLensStoreData h dataRef).2
      = h.read dataRef) ∧
    (((fitLensStoreData h dataRef).1.write (fitLensStoreData h dataRef).2 m).read dataRef
      = h.read dataRef) := by
  refine ⟨?_, ?_, ?_, ?_⟩
  · show (h.arrays ++ [h.read dataRef]).getD h.arrays.length [] = h.read dataRef
    exact list_getD_append_length _ _
  · show h.arrays.length ≠ dataRef
    omega
  · show ((h.arrays ++ [h.read dataRef]).set dataRef m).getD h.arrays.length []
      = h.read dataRef
    rw [list_getD_set_ne _ _ _ _ (by omega)]
    exact list_getD_append_length _ _
  · show ((h.arrays ++ [h.read dataRef]).set h.arrays.length m).getD dataRef []
      = h.read dataRef
    rw [list_getD_set_ne _ _ _ _ (by omega)]
    exact List.getD_append _ _ _ _ hvalid

/-- Witness for C8 on a one-array heap. -/
theorem claim_C8_witness :
    (0 < (ArrayHeap.mk [[[1, 2], [3, 4]]]).arrays.length) ∧
    (((fitLensStoreData (ArrayHeap.mk [[[1, 2], [3, 4]]]) 0).1.read
        (fitLensStoreData (ArrayHeap.mk [[[1, 2], [3, 4]]]) 0).2 =
        (ArrayHeap.mk [[[1, 2], [3, 4]]]).read 0) ∧
     ((fitLensStoreData (ArrayHeap.mk [[[1, 2], [3, 4]]]) 0).2 ≠ 0) ∧
     (((fitLensStoreData (ArrayHeap.mk [[[1, 2], [3, 4]]]) 0).1.write 0 [[9]]).read
        (fitLensStoreData (ArrayHeap.mk [[[1, 2], [3, 4]]]) 0).2 =
        (ArrayHeap.mk [[[1, 2], [3, 4]]]).read 0) ∧
     (((fitLensStoreData (ArrayHeap.mk [[[1, 2], [3, 4]]]) 0).1.write
        (fitLensStoreData (ArrayHeap.mk [[[1, 2], [3, 4]]]) 0).2 [[9]]).read 0 =
        (ArrayHeap.mk [[[1, 2], [3, 4]]]).read 0)) :=
  ⟨by decide, claim_C8 (ArrayHeap.mk [[[1, 2], [3, 4]]]) 0 [[9]] (by decide)⟩

/-- Claim C10 (counterexample): "non-None" is not the condition the code
tests — Python `or` tests truthiness.  A non-`None` but falsy cover
argument (the empty dict) does not persist: the stored cover becomes the
heuristic result instead of the supplied value. -/
theorem claim_C10_counterexample :
    (KMapperWrapper.fitGraph env0 defaultWrapper [[0]] (some data0)
        (Py.obj true ⟨5⟩) (Py.obj false ⟨9⟩)).cover ≠ Py.obj false (⟨9⟩ : CoverCfg) := by
  decide

/-- Claim C10 (amended): explicit truthy configuration overrides persist on
the instance: after `fit_graph(lens, data, clusterer=c, cover=v)` with
truthy `c` and `v` (non-`None` and not falsy, for example not an empty
dict), the stored clusterer and cover equal `c` and `v`, and every later
`fit_graph` or `fit` call on the same instance that omits these arguments
reuses `c` and `v` instead of re-running the heuristics; likewise
`fit_lens` persists truthy `projection`/`scaler` overrides. -/
theorem claim_C10_amended_thm (env : Env) (s : Wrapper) (lens lens2 d2 : Mat)
    (data data2 : Option Mat) (c : Py ClusterCfg) (v : Py CoverCfg)
    (p : Py ProjCfg) (sc : Py ScalerCfg)
    (hc : c.isTruthy = true) (hv : v.isTruthy = true)
    (hp : p.isTruthy = true) (hsc : sc.isTruthy = true) :
    ((KMapperWrapper.fitGraph env s lens data c v).clusterer = c) ∧
    ((KMapperWrapper.fitGraph env s lens data c v).cover = v) ∧
    ((KMapperWrapper.fitGraph env (KMapperWrapper.fitGraph env s lens data c v)
        lens2 data2 Py.none Py.none).clusterer = c) ∧
    ((KMapperWrapper.fitGraph env (KMapperWrapper.fitGraph env s lens data c v)
        lens2 data2 Py.none Py.none).cover = v) ∧
    ((KMapperWrapper.fit env (KMapperWrapper.fitGraph env s lens data c v)
        d2 Option.none Py.none Py.none Py.none Py.none).clusterer = c) ∧
    ((KMapperWrapper.fit env (KMapperWrapper.fitGraph env s lens data c v)
        d2 Option.none Py.none Py.none Py.none Py.none).cover = v) ∧
    ((KMapperWrapper.fitLens env s d2 p sc).projection = p) ∧
    ((KMapperWrapper.fitLens env s d2 p sc).scaler = sc) := by
  have hcr : ∀ y, pyOr c y = c := fun y => pyOr_of_truthy _ _ hc
  have hvr : ∀ y, pyOr v y = v := fun y => pyOr_of_truthy _ _ hv
  have hpr : ∀ y, pyOr p y = p := fun y => pyOr_of_truthy _ _ hp
  have hscr : ∀ y, pyOr sc y = sc := fun y => pyOr_of_truthy _ _ hsc
  refine ⟨?_, ?_, ?_, ?_, ?_, ?_, ?_, ?_⟩ <;>
    simp [KMapperWrapper.fit, KMapperWrapper.fitLens, KMapperWrapper.fitGraph,
      pyOr_none_left, hcr, hvr, hpr, hscr]

/-- Witness for the amended C10 at concrete truthy overrides. -/
theorem claim_C10_witness :
    (((Py.obj true (⟨7⟩ : ClusterCfg)).isTruthy = true) ∧
     ((Py.obj true (⟨8⟩ : CoverCfg)).isTruthy = true) ∧
     ((Py.obj true (⟨3⟩ : ProjCfg)).isTruthy = true) ∧
     ((Py.obj true (⟨4⟩ : ScalerCfg)).isTruthy = true)) ∧
    (((KMapperWrapper.fitGraph env0 defaultWrapper [[0]] (some data0)
        (Py.obj true ⟨7⟩) (Py.obj true ⟨8⟩)).clusterer = Py.obj true ⟨7⟩) ∧
     ((KMapperWrapper.fitGraph env0 defaultWrapper [[0]] (some data0)
        (Py.obj true ⟨7⟩) (Py.obj true ⟨8⟩)).cover = Py.obj true ⟨8⟩) ∧
     ((KMapperWrapper.fitGraph env0
        (KMapperWrapper.fitGraph env0 defaultWrapper [[0]] (some data0)
          (Py.obj true ⟨7⟩) (Py.obj true ⟨8⟩))
        [[1]] (some [[3]]) Py.none Py.none).clusterer = Py.obj true ⟨7⟩) ∧
     ((KMapperWrapper.fitGraph env0
        (KMapperWrapper.fitGraph env0 defaultWrapper [[0]] (some data0)
          (Py.obj true ⟨7⟩) (Py.obj true ⟨8⟩))
        [[1]] (some [[3]]) Py.none Py.none).cover = Py.obj true ⟨8⟩) ∧
     ((KMapperWrapper.fit env0
        (KMapperWrapper.fitGraph env0 defaultWrapper [[0]] (some data0)
          (Py.obj true ⟨7⟩) (Py.obj true ⟨8⟩))
        [[2]] Option.none Py.none Py.none Py.none Py.none).clusterer = Py.obj true ⟨7⟩) ∧
     ((KMapperWrapper.fit env0
        (KMapperWrapper.fitGraph env0 defaultWrapper [[0]] (some data0)
          (Py.obj true ⟨7⟩) (Py.obj true ⟨8⟩))
        [[2]] Option.none Py.none Py.none Py.none Py.none).cover = Py.obj true ⟨8⟩) ∧
     ((KMapperWrapper.fitLens env0 defaultWrapper [[2]]
        (Py.obj true ⟨3⟩) (Py.obj true ⟨4⟩)).projection = Py.obj true ⟨3⟩) ∧
     ((KMapperWrapper.fitLens env0 defaultWrapper [[2]]
        (Py.obj true ⟨3⟩) (Py.obj true ⟨4⟩)).scaler = Py.obj true ⟨4⟩)) :=
  ⟨⟨rfl, rfl, rfl, rfl⟩,
    claim_C10_amended_thm env0 defaultWrapper [[0]] [[1]] [[2]]
      (some data0) (some [[3]]) (Py.obj true ⟨7⟩) (Py.obj true ⟨8⟩)
      (Py.obj true ⟨3⟩) (Py.obj true ⟨4⟩) rfl rfl rfl rfl⟩

end Dyneusr
